import Mathlib

/-!
Verification of the asynchronous simulation job orchestration layer of the
PandemicExerciseTool-Dash repository: the input normalizer
(`return_valid_input` in `backend/pet/pes_task.py`), the output harvester
loop (`run_pes`), and the day-lookup control surface (`get_output` in
`backend/pet/views.py`), embedded shallowly in Lean.

Python JSON values are modelled by `JValue`; Python-level behaviors that the
source relies on (`str.split`, `','.join`, `str()`, dict key update/delete,
`json.loads` outcomes) are modelled by explicit total functions.  Fallible
Python code is modelled with `Except`/`Option`.
-/

/-- A Python value obtained from parsed JSON: null, booleans, ints, floats
(carried as their literal representation, since no arithmetic is ever done on
them by the orchestration layer), strings, lists and dicts. -/
inductive JValue where
  | null
  | bool (b : Bool)
  | int (n : Int)
  | float (lit : String)
  | str (s : String)
  | arr (elems : List JValue)
  | obj (fields : List (String × JValue))

/-- Assoc lookup of a dict key: Python `d[k]` returning the first binding. -/
def lookupKey : List (String × JValue) → String → Option JValue
  | [], _ => none
  | (k, v) :: rest, n => if k = n then some v else lookupKey rest n

/-- Python dict assignment `d[k] = v`: replaces the value at an existing key
in place (keeping the key order), appends otherwise. -/
def setKey : List (String × JValue) → String → JValue → List (String × JValue)
  | [], n, v => [(n, v)]
  | (k, w) :: rest, n, v =>
      if k = n then (k, v) :: rest else (k, w) :: setKey rest n v

/-- Python `del d[k]`: removes the (unique) binding of `k`. -/
def removeKey : List (String × JValue) → String → List (String × JValue)
  | [], _ => []
  | (k, v) :: rest, n => if k = n then rest else (k, v) :: removeKey rest n

mutual
/-- Python `repr()` on a parsed-JSON value (what `str()` shows inside
containers): scalars print as Python prints them, strings are quoted. -/
def pyRepr : JValue → String
  | .null => "None"
  | .bool true => "True"
  | .bool false => "False"
  | .int n => toString n
  | .float lit => lit
  | .str s => "\x27" ++ s ++ "\x27"
  | .arr xs => "[" ++ pyReprArr xs ++ "]"
  | .obj fs => "\x7b" ++ pyReprObj fs ++ "\x7d"

/-- Comma-separated `repr`s of a list's elements. -/
def pyReprArr : List JValue → String
  | [] => ""
  | [x] => pyRepr x
  | x :: xs => pyRepr x ++ ", " ++ pyReprArr xs

/-- Comma-separated `repr`s of a dict's items. -/
def pyReprObj : List (String × JValue) → String
  | [] => ""
  | [(k, v)] => "\x27" ++ k ++ "\x27: " ++ pyRepr v
  | (k, v) :: fs => "\x27" ++ k ++ "\x27: " ++ pyRepr v ++ ", " ++ pyReprObj fs
end

/-- Python `str()` on a parsed-JSON value: like `repr` except that a string
prints unquoted. -/
def pyStr : JValue → String
  | .str s => s
  | v => pyRepr v

/-- Python `s.split(',')` on the underlying character list: splits at every
comma and keeps empty pieces (`''.split(',') = ['']`). -/
def pySplitChars : List Char → List (List Char)
  | [] => [[]]
  | c :: rest =>
      if c = ',' then [] :: pySplitChars rest
      else
        match pySplitChars rest with
        | [] => [[c]]
        | g :: gs => (c :: g) :: gs

/-- Python `s.split(',')`. -/
def pySplit (s : String) : List String :=
  (pySplitChars s.data).map (fun cs => String.mk cs)

/-- Python `','.join(xs)`. -/
def pyJoin : List String → String
  | [] => ""
  | [x] => x
  | x :: xs => x ++ "," ++ pyJoin xs

/-- Modelled from the spec: the fixed region name→id mapping (`texas_mapping`
in `texasMapping.py`, which is imported by `pes_task.py` but absent from the
sources).  Per the spec it maps Texas county names to the simulator's internal
region ids, distinct per county, with id `"1"` being Anderson County (the
documented default for unknown names).  Representative entries suffice for the
orchestration layer, which only looks names up. -/
def texas_mapping : List (String × String) :=
  [("Anderson", "1"), ("Andrews", "2"), ("Angelina", "3"),
   ("Aransas", "4"), ("Archer", "5"), ("Bexar", "15"),
   ("Harris", "101"), ("Travis", "227")]

/-- Assoc lookup in the region mapping (Python `name in texas_mapping` /
`texas_mapping[name]`). -/
def lookupName : List (String × String) → String → Option String
  | [], _ => none
  | (k, v) :: rest, n => if k = n then some v else lookupName rest n

/-- Resolve one county name: a mapped name yields its region id; an unknown
name yields the default id `"1"` together with a warning log entry naming the
county (the `print` on the else-branch of `return_valid_input`). -/
def countyIdStr (name : String) : String × List String :=
  match lookupName texas_mapping name with
  | some id => (id, [])
  | none => ("1", [name])

/-- Resolve one element of a list-shaped `location`: strings go through the
mapping; hashable non-strings are never mapping keys, so they resolve to the
default id with a warning; lists and dicts are unhashable, so the Python
membership test raises `TypeError` (`none`). -/
def countyIdVal : JValue → Option (String × List String)
  | .str s => some (countyIdStr s)
  | .arr _ => none
  | .obj _ => none
  | v => some ("1", [pyStr v])

/-- Collect the resolved ids and warnings of a list of counties; `none` if any
element raises. -/
def resolveCounties : List JValue → Option (List String × List String)
  | [] => some ([], [])
  | c :: cs =>
      match countyIdVal c with
      | none => none
      | some (id, w) =>
          match resolveCounties cs with
          | none => none
          | some (ids, ws) => some (id :: ids, w ++ ws)

/-- Normalization of an NPI `location` field (`pes_task.py` lines 36–51):
a string is split on commas, a list is used as-is, anything else becomes the
one-element list of its `str()`; each county resolves through the mapping
(default `"1"` and a warning for unknown names) and the ids are re-joined with
commas.  Returns the joined id string and the warnings; `none` models an
uncaught-at-this-level `TypeError` from an unhashable county. -/
def normLocation : JValue → Option (String × List String)
  | .str s =>
      let rs := (pySplit s).map countyIdStr
      some (pyJoin (rs.map Prod.fst), (rs.map Prod.snd).flatten)
  | .arr l =>
      match resolveCounties l with
      | none => none
      | some (ids, ws) => some (pyJoin ids, ws)
  | v =>
      let r := countyIdStr (pyStr v)
      some (r.fst, r.snd)

/-- Normalization of an NPI `effectiveness` field (`pes_task.py` lines 54–60):
a string is split on commas, a list is `str()`-ed elementwise, anything else
becomes the one-element list of its `str()`.  Never fails, and never changes
the number of entries. -/
def normEffectiveness : JValue → List String
  | .str s => pySplit s
  | .arr l => l.map pyStr
  | v => [pyStr v]

/-- Process one NPI entry (the body of the `for` loop in `return_valid_input`):
the entry must be a dict with `location` and `effectiveness` keys (otherwise a
`TypeError`/`KeyError` is raised, modelled as `none`); `location` is replaced
by the joined region ids and `effectiveness` by the normalized string list. -/
def processNpi : JValue → Option JValue
  | .obj fields =>
      match lookupKey fields "location" with
      | none => none
      | some loc =>
          match normLocation loc with
          | none => none
          | some (locStr, _) =>
              let fields1 := setKey fields "location" (.str locStr)
              match lookupKey fields1 "effectiveness" with
              | none => none
              | some eff =>
                  some (.obj (setKey fields1 "effectiveness"
                    (.arr ((normEffectiveness eff).map JValue.str))))
  | _ => none

/-- Process every NPI entry in order; `none` as soon as one raises. -/
def processNpiList : List JValue → Option (List JValue)
  | [] => some []
  | x :: xs =>
      match processNpi x with
      | none => none
      | some y =>
          match processNpiList xs with
          | none => none
          | some ys => some (y :: ys)

/-- Iterate `for index, npi in enumerate(npis)` over the parsed `npis` value:
a JSON array processes elementwise; an empty string or empty dict iterates
zero times and is returned unchanged; any other value raises on iteration or
on its first element (`TypeError`), modelled as `none`. -/
def processNpis : JValue → Option JValue
  | .arr xs =>
      match processNpiList xs with
      | none => none
      | some ys => some (.arr ys)
  | .str s => if s = "" then some (.str "") else none
  | .obj [] => some (.obj [])
  | _ => none

/-- The shape in which one request field arrives (the value of one key of the
JSON-decoded request body handed to `return_valid_input`): the key may be
absent (`d[k]` raises `KeyError`), present with Python `None` (`json.loads`
raises `TypeError`), present with a string that is not valid JSON
(`json.loads` raises `json.JSONDecodeError`), present with a non-string value
(`json.loads` raises `TypeError`), or present with a string that parses to a
JSON value. -/
inductive RawField where
  | absent
  | pyNone
  | malformed
  | nonString (v : JValue)
  | parsed (v : JValue)

/-- The Python exceptions `return_valid_input` can raise or catch. -/
inductive PyErr where
  | keyError (k : String)
  | jsonDecodeError
  | typeError
deriving DecidableEq

/-- The whole `npis` block (`pes_task.py` lines 30–66): a `None` field yields
the empty list; every caught error (`TypeError`, `KeyError`,
`JSONDecodeError` — absent key, malformed JSON, non-string value, or a bad
NPI entry) yields the sentinel Python `None` (`none`); a parsed value is
processed entrywise.  This block never propagates an exception. -/
def normNpis : RawField → Option JValue
  | .absent => none
  | .pyNone => some (.arr [])
  | .malformed => none
  | .nonString _ => none
  | .parsed v => processNpis v

/-- One optional JSON-encoded field parsed as `json.loads(input[k])` under
`except (TypeError, json.JSONDecodeError)` (lines 68–90): a missing key
raises `KeyError` (uncaught!); `None`, a non-string, or a malformed string
degrade to the sentinel `None`; a parsed `null` is Python `None` as well. -/
def jsonOptField (k : String) : RawField → Except PyErr (Option JValue)
  | .absent => .error (.keyError k)
  | .pyNone => .ok none
  | .malformed => .ok none
  | .nonString _ => .ok none
  | .parsed .null => .ok none
  | .parsed v => .ok (some v)

/-- The `[va] * 5` broadcast applied to a non-`None` adherence/effectiveness
value (lines 77–78 and 84–85). -/
def broadcast5 (o : Option JValue) : Option JValue :=
  o.map (fun v => .arr (List.replicate 5 v))

/-- `json.loads(input.get('initial_infected', '[]'))` (line 114): an absent
key parses the default `'[]'`; `None` and non-strings raise `TypeError` and a
malformed string raises `JSONDecodeError`, all of them uncaught. -/
def initialInfectedField : RawField → Except PyErr JValue
  | .absent => .ok (.arr [])
  | .pyNone => .error .typeError
  | .nonString _ => .error .typeError
  | .malformed => .error .jsonDecodeError
  | .parsed v => .ok v

/-- `input[k]` for a structurally required scalar field: raises `KeyError`
when absent, passes the value through otherwise. -/
def requireKey (k : String) : Option JValue → Except PyErr JValue
  | none => .error (.keyError k)
  | some v => .ok v

/-- `input['nu'].split(',') if isinstance(input['nu'], str) else input['nu']`
(line 112): a string is split on commas into a list, anything else passes
through unchanged. -/
def normNu : JValue → JValue
  | .str s => .arr ((pySplit s).map JValue.str)
  | v => v

/-- A SimulationRequest: the JSON-decoded body `return_valid_input` receives.
The six JSON-encoded sub-fields arrive as `RawField`; the scalar fields read
via plain `input[k]` arrive as `Option JValue` (`none` = key absent, raising
`KeyError`). -/
structure SimulationRequest where
  npis : RawField
  antiviral_stockpile : RawField
  vaccine_adherence : RawField
  vaccine_effectiveness : RawField
  vaccine_stockpile : RawField
  initial_infected : RawField
  R0 : Option JValue
  beta_scale : Option JValue
  tau : Option JValue
  kappa : Option JValue
  gamma : Option JValue
  chi : Option JValue
  rho : Option JValue
  nu : Option JValue
  antiviral_effectiveness : Option JValue
  antiviral_wastage_factor : Option JValue
  vaccine_wastage_factor : Option JValue
  vaccine_pro_rata : Option JValue

/-- The `parameters` block of the simulator config. -/
structure Parameters where
  R0 : JValue
  beta_scale : JValue
  tau : JValue
  kappa : JValue
  gamma : JValue
  chi : JValue
  rho : JValue
  nu : JValue

/-- The `antivirals` block of the simulator config. -/
structure Antivirals where
  antiviral_effectiveness : JValue
  antiviral_wastage_factor : JValue
  antiviral_stockpile : Option JValue

/-- The `vaccines` block of the simulator config. -/
structure Vaccines where
  vaccine_wastage_factor : JValue
  vaccine_pro_rata : JValue
  vaccine_adherence : Option JValue
  vaccine_effectiveness : Option JValue
  vaccine_stockpile : Option JValue

/-- The fixed `data` block of static input file paths (lines 95–103). -/
def simDataPaths : List (String × String) :=
  [("population", "/PES/data/texas/county_age_matrix_small.csv"),
   ("contact", "/PES/data/texas/contact_matrix.csv"),
   ("flow", "/PES/data/texas/work_matrix_rel.csv"),
   ("high_risk_ratios", "/PES/data/texas/high_risk_ratios.csv"),
   ("flow_reduction", "/PES/data/texas/flow_reduction.csv"),
   ("relative_susceptibility", "/PES/data/texas/relative_susceptibility.csv"),
   ("nu_value_matrix", "/PES/data/texas/nu_value_matrix.csv")]

/-- The SimulationConfig: the `input_file` dict built on lines 92–128, the
exact structure the simulator consumes.  `Option JValue` fields are the ones
whose value may be the Python `None` sentinel (serialized as JSON null). -/
structure SimulationConfig where
  output : String
  number_of_realizations : String
  dataPaths : List (String × String)
  parameters : Parameters
  initial_infected : JValue
  non_pharma_interventions : Option JValue
  antivirals : Antivirals
  vaccines : Vaccines

/-- The Input Normalizer (`return_valid_input`, `pes_task.py` lines 25–130),
with the side-effect-free computations sequenced in the order the Python
evaluates them: the caught-everything `npis` block; the four optional
JSON-encoded fields (whose *absent key* still raises `KeyError`); then the
`input_file` dict literal, whose values are evaluated top to bottom —
the required parameter block (`KeyError` when absent, `nu` shape-normalized),
`initial_infected` (whose parse errors are uncaught), and the remaining
required scalar fields. -/
def return_valid_input (input : SimulationRequest) : Except PyErr SimulationConfig := do
  let npis := normNpis input.npis
  let avs ← jsonOptField "antiviral_stockpile" input.antiviral_stockpile
  let va0 ← jsonOptField "vaccine_adherence" input.vaccine_adherence
  let va := broadcast5 va0
  let ve0 ← jsonOptField "vaccine_effectiveness" input.vaccine_effectiveness
  let ve := broadcast5 ve0
  let vs ← jsonOptField "vaccine_stockpile" input.vaccine_stockpile
  let r0 ← requireKey "R0" input.R0
  let betaScale ← requireKey "beta_scale" input.beta_scale
  let tau ← requireKey "tau" input.tau
  let kappa ← requireKey "kappa" input.kappa
  let gamma ← requireKey "gamma" input.gamma
  let chi ← requireKey "chi" input.chi
  let rho ← requireKey "rho" input.rho
  let nuRaw ← requireKey "nu" input.nu
  let ii ← initialInfectedField input.initial_infected
  let ae ← requireKey "antiviral_effectiveness" input.antiviral_effectiveness
  let awf ← requireKey "antiviral_wastage_factor" input.antiviral_wastage_factor
  let vwf ← requireKey "vaccine_wastage_factor" input.vaccine_wastage_factor
  let vpr ← requireKey "vaccine_pro_rata" input.vaccine_pro_rata
  return { output := "OUTPUT.json"
           number_of_realizations := "1"
           dataPaths := simDataPaths
           parameters :=
             { R0 := r0, beta_scale := betaScale, tau := tau, kappa := kappa,
               gamma := gamma, chi := chi, rho := rho, nu := normNu nuRaw }
           initial_infected := ii
           non_pharma_interventions := npis
           antivirals :=
             { antiviral_effectiveness := ae, antiviral_wastage_factor := awf,
               antiviral_stockpile := avs }
           vaccines :=
             { vaccine_wastage_factor := vwf, vaccine_pro_rata := vpr,
               vaccine_adherence := va, vaccine_effectiveness := ve,
               vaccine_stockpile := vs } }

/-- The Result Store: the `PES.days` Mongo collection, as the list of inserted
documents in insertion (natural) order plus a counter for fresh ObjectIds. -/
structure DayStore where
  docs : List JValue
  nextId : Nat

/-- The store before any ingestion. -/
def emptyStore : DayStore := { docs := [], nextId := 0 }

/-- The store-internal ObjectId value `insert_one` stamps on a document. -/
def oidValue (n : Nat) : JValue := .str ("ObjectId-" ++ toString n)

/-- `insert_one` mutates its argument, adding an `_id` key at the end when the
document does not already carry one. -/
def addId (fields : List (String × JValue)) (n : Nat) : List (String × JValue) :=
  match lookupKey fields "_id" with
  | some _ => fields
  | none => fields ++ [("_id", oidValue n)]

/-- `mycol.insert_one(mydict)`: appends the (id-stamped) document. -/
def insertOne (s : DayStore) (fields : List (String × JValue)) : DayStore :=
  { docs := s.docs ++ [.obj (addId fields s.nextId)], nextId := s.nextId + 1 }

/-- Whether a stored document matches the query `{'day': d}`. -/
def dayMatches (doc : JValue) (d : Int) : Bool :=
  match doc with
  | .obj fields =>
      match lookupKey fields "day" with
      | some (.int n) => n == d
      | _ => false
  | _ => false

/-- `mycol.find_one({'day': int(day)})`: the first matching document in
natural order, if any. -/
def findDay (s : DayStore) (d : Int) : Option JValue :=
  s.docs.find? (fun doc => dayMatches doc d)

/-- `del mydoc['_id']` before returning a found document. -/
def delMongoId : JValue → JValue
  | .obj fields => .obj (removeKey fields "_id")
  | v => v

/-- The 404 body `{"error": f"Day {day} not calculated"}`. -/
def notCalculatedBody (d : Int) : JValue :=
  .obj [("error", .str ("Day " ++ toString d ++ " not calculated"))]

/-- The get-day endpoint (`get_output` in `views.py` lines 39–49) on a GET
request: an HTTP status code and a JSON body.  A missing day logs a warning
and answers 404 with an error body; a found day answers 200 with the document
stripped of its store-internal `_id`. -/
def get_output (s : DayStore) (d : Int) : Nat × JValue :=
  match findDay s d with
  | none => (404, notCalculatedBody d)
  | some doc => (200, delMongoId doc)

/-- The contents of one file in the exchange directory, as the Harvester's
`json.load` sees it: either a value parsed from well-formed JSON, or a file
whose parse raises (truncated/malformed). -/
inductive FileContent where
  | ok (v : JValue)
  | malformed

/-- One ingestion attempt (`pes_task.py` lines 175–184): `json.load` then
`insert_one`.  A malformed file raises inside the `try`; a parsed non-dict
makes `insert_one` raise `TypeError`; both land in the `except` branch (no
insert, no count).  Returns the new store and whether the day was counted.
The caller removes the file in either case. -/
def tryIngest (f : FileContent) (s : DayStore) : DayStore × Bool :=
  match f with
  | .malformed => (s, false)
  | .ok v =>
      match v with
      | .obj fields => (insertOne s fields, true)
      | _ => (s, false)

/-- The Harvester poll loop of `run_pes` (`pes_task.py` lines 164–189), with
wall-clock time in half-second ticks: each iteration sleeps 0.5 s (1 tick)
and an iteration that found a file sleeps 1 s more (2 ticks), so the
`while time.time() - start_time < 300` guard is `e < 600` ticks.  `arr i` is
the list of files the simulator writes to the exchange directory during
iteration `i` (appended after the iteration's glob); `dir` is the current
directory listing, of which the loop always looks at the head (`files[0]`).
The head file is removed (`os.remove`) whether or not its ingestion
succeeded; the loop breaks once 90 days are counted.  Returns the final tick
count, the processed-file count, and the store. -/
def harvestLoop (arr : Nat → List FileContent) (i e p : Nat) (s : DayStore)
    (dir : List FileContent) : Nat × Nat × DayStore :=
  if _h : e < 600 then
    match dir with
    | [] =>
        if 90 ≤ p then (e + 1, p, s)
        else harvestLoop arr (i + 1) (e + 1) p s (arr i)
    | f :: rest =>
        let r := tryIngest f s
        let p1 := if r.snd then p + 1 else p
        if 90 ≤ p1 then (e + 3, p1, r.fst)
        else harvestLoop arr (i + 1) (e + 3) p1 r.fst (rest ++ arr i)
  else (e, p, s)
termination_by 600 - e

/-- The harvest phase and result value of the `run_pes` task (lines 164–191):
the loop starting from an empty count, followed by the returned summary
string `f'Simulation completed. Processed {n} files.'`.  The preceding I/O
(writing `INPUT.json`, launching the simulator via `subprocess.Popen`) is the
Process Supervisor's side effect and contributes no state to the loop beyond
the arrival stream `arr`. -/
def run_pes (arr : Nat → List FileContent) (dir0 : List FileContent) :
    String × DayStore :=
  let r := harvestLoop arr 0 0 0 emptyStore dir0
  ("Simulation completed. Processed " ++ toString r.2.1 ++ " files.", r.2.2)

/-! ## Helper lemmas -/

/-- Inversion of a successful `Except` bind. -/
theorem exceptBindOk {α β γ : Type} {a : Except γ α} {f : α → Except γ β} {c : β}
    (h : (a >>= f) = .ok c) : ∃ x, a = .ok x ∧ f x = .ok c := by
  cases a with
  | error e => simp [Bind.bind, Except.bind] at h
  | ok x => exact ⟨x, rfl, by simpa [Bind.bind, Except.bind] using h⟩

/-- How each SimulationConfig field of a successful normalization is computed
from the corresponding SimulationRequest field. -/
theorem rvi_fields (r : SimulationRequest) (cfg : SimulationConfig)
    (h : return_valid_input r = .ok cfg) :
    cfg.non_pharma_interventions = normNpis r.npis ∧
    (∃ w, jsonOptField "antiviral_stockpile" r.antiviral_stockpile = .ok w ∧
      cfg.antivirals.antiviral_stockpile = w) ∧
    (∃ w, jsonOptField "vaccine_adherence" r.vaccine_adherence = .ok w ∧
      cfg.vaccines.vaccine_adherence = broadcast5 w) ∧
    (∃ w, jsonOptField "vaccine_effectiveness" r.vaccine_effectiveness = .ok w ∧
      cfg.vaccines.vaccine_effectiveness = broadcast5 w) ∧
    (∃ w, jsonOptField "vaccine_stockpile" r.vaccine_stockpile = .ok w ∧
      cfg.vaccines.vaccine_stockpile = w) ∧
    (∃ u, r.nu = some u ∧ cfg.parameters.nu = normNu u) ∧
    (∃ w, initialInfectedField r.initial_infected = .ok w ∧ cfg.initial_infected = w) := by
  unfold return_valid_input at h
  obtain ⟨avs, havs, h⟩ := exceptBindOk h
  obtain ⟨va0, hva, h⟩ := exceptBindOk h
  obtain ⟨ve0, hve, h⟩ := exceptBindOk h
  obtain ⟨vs, hvs, h⟩ := exceptBindOk h
  obtain ⟨r0, hr0, h⟩ := exceptBindOk h
  obtain ⟨bs, hbs, h⟩ := exceptBindOk h
  obtain ⟨tau, htau, h⟩ := exceptBindOk h
  obtain ⟨kappa, hkappa, h⟩ := exceptBindOk h
  obtain ⟨gamma, hgamma, h⟩ := exceptBindOk h
  obtain ⟨chi, hchi, h⟩ := exceptBindOk h
  obtain ⟨rho, hrho, h⟩ := exceptBindOk h
  obtain ⟨nuRaw, hnu, h⟩ := exceptBindOk h
  obtain ⟨ii, hii, h⟩ := exceptBindOk h
  obtain ⟨ae, hae, h⟩ := exceptBindOk h
  obtain ⟨awf, hawf, h⟩ := exceptBindOk h
  obtain ⟨vwf, hvwf, h⟩ := exceptBindOk h
  obtain ⟨vpr, hvpr, h⟩ := exceptBindOk h
  simp only [pure, Except.pure, Except.ok.injEq] at h
  subst h
  refine ⟨rfl, ⟨avs, havs, rfl⟩, ⟨va0, hva, rfl⟩, ⟨ve0, hve, rfl⟩, ⟨vs, hvs, rfl⟩,
    ⟨nuRaw, ?_, rfl⟩, ⟨ii, hii, rfl⟩⟩
  cases hn : r.nu with
  | none => rw [hn] at hnu; simp [requireKey] at hnu
  | some u => rw [hn] at hnu; simp [requireKey] at hnu; rw [hnu]

/-- Looking a key up after appending a binding for a different key. -/
theorem lookupKey_append_single (fields : List (String × JValue)) (a k : String)
    (b : JValue) (hne : a ≠ k) :
    lookupKey (fields ++ [(a, b)]) k = lookupKey fields k := by
  induction fields with
  | nil => simp [lookupKey, hne]
  | cons kv rest ih =>
      obtain ⟨k1, v1⟩ := kv
      by_cases h : k1 = k <;> simp [lookupKey, h, ih]

/-- Removing an appended binding recovers the original dict when the key was
not already present. -/
theorem removeKey_append_single (fields : List (String × JValue)) (a : String)
    (b : JValue) (hid : lookupKey fields a = none) :
    removeKey (fields ++ [(a, b)]) a = fields := by
  induction fields with
  | nil => simp [removeKey]
  | cons kv rest ih =>
      obtain ⟨k1, v1⟩ := kv
      by_cases h : k1 = a
      · simp [lookupKey, h] at hid
      · simp [lookupKey, h] at hid
        simp [removeKey, h, ih hid]

/-! ## Claim theorems -/

/-- C7: for every day `d`, the get-day endpoint answers 200 together with a
stored document matching day `d` (stripped of the store-internal `_id`) when
one is present, and 404 together with the `{error}` body when no stored
document matches day `d`; no other status or partial body is ever produced. -/
theorem get_output_dichotomy (s : DayStore) (d : Int) :
    ((get_output s d).fst = 200 ∧
      ∃ doc ∈ s.docs, dayMatches doc d = true ∧ (get_output s d).snd = delMongoId doc) ∨
    ((get_output s d).fst = 404 ∧ (∀ doc ∈ s.docs, dayMatches doc d = false) ∧
      (get_output s d).snd = notCalculatedBody d) := by
  unfold get_output findDay
  cases hf : s.docs.find? (fun doc => dayMatches doc d) with
  | none =>
      right
      refine ⟨rfl, ?_, rfl⟩
      intro doc hd
      simpa using List.find?_eq_none.mp hf doc hd
  | some doc =>
      left
      exact ⟨rfl, doc, List.mem_of_find?_eq_some hf,
        by simpa using List.find?_some hf, rfl⟩

/-- C6: round-trip fidelity — before day `d` is ingested `get_day(d)` answers
404 "not found"; after ingesting a well-formed document whose `day` field is
`d` (and which, like every simulator output file, carries no `_id` key of its
own), `get_day(d)` answers 200 with exactly the ingested document: same
fields in the same order, day number preserved, no store-internal field
visible. -/
theorem get_day_roundtrip (s : DayStore) (d : Int) (fields : List (String × JValue))
    (hnone : findDay s d = none)
    (hday : lookupKey fields "day" = some (.int d))
    (hid : lookupKey fields "_id" = none) :
    get_output s d = (404, notCalculatedBody d) ∧
    get_output (insertOne s fields) d = (200, .obj fields) := by
  have hmatch : dayMatches (.obj (addId fields s.nextId)) d = true := by
    simp [dayMatches, addId, hid,
      lookupKey_append_single fields "_id" "day" (oidValue s.nextId) (by decide), hday]
  constructor
  · simp [get_output, hnone]
  · have hfind : findDay (insertOne s fields) d = some (.obj (addId fields s.nextId)) := by
      unfold findDay insertOne at *
      rw [List.find?_append]
      rw [hnone]
      simp [List.find?_cons, hmatch]
    simp only [get_output, hfind]
    simp [delMongoId, addId, hid,
      removeKey_append_single fields "_id" (oidValue s.nextId) hid]

/-- A concrete well-formed DayRecord for day 3. -/
def dayDoc3 : List (String × JValue) :=
  [("day", .int 3),
   ("total_summary", .obj [("S", .int 100), ("D", .int 0)]),
   ("fips_id", .str "1")]

/-- C6 witness: the round-trip theorem applied to day 3 on the empty store. -/
theorem get_day_roundtrip_witness :
    get_output emptyStore 3 = (404, notCalculatedBody 3) ∧
    get_output (insertOne emptyStore dayDoc3) 3 = (200, .obj dayDoc3) :=
  get_day_roundtrip emptyStore 3 dayDoc3 rfl rfl rfl

/-- A parsed non-null optional field passes through `jsonOptField`. -/
theorem jsonOptField_parsed_ne_null (k : String) (v : JValue) (h : v ≠ .null) :
    jsonOptField k (.parsed v) = .ok (some v) := by
  cases v
  case null => exact absurd rfl h
  all_goals rfl

/-- C10: a parsed non-null `vaccine_adherence`/`vaccine_effectiveness` value
`v` — scalar or list — lands in the config as the 5-element list `[v]*5`. -/
theorem vaccine_fields_replicate (r : SimulationRequest) (cfg : SimulationConfig)
    (h : return_valid_input r = .ok cfg) :
    (∀ v, r.vaccine_adherence = .parsed v → v ≠ .null →
      cfg.vaccines.vaccine_adherence = some (.arr (List.replicate 5 v))) ∧
    (∀ v, r.vaccine_effectiveness = .parsed v → v ≠ .null →
      cfg.vaccines.vaccine_effectiveness = some (.arr (List.replicate 5 v))) := by
  obtain ⟨-, -, ⟨va0, hva, hcva⟩, ⟨ve0, hve, hcve⟩, -, -, -⟩ := rvi_fields r cfg h
  constructor
  · intro v hv hnull
    rw [hv, jsonOptField_parsed_ne_null _ v hnull] at hva
    cases hva
    simp [hcva, broadcast5]
  · intro v hv hnull
    rw [hv, jsonOptField_parsed_ne_null _ v hnull] at hve
    cases hve
    simp [hcve, broadcast5]

/-- A concrete structurally well-formed request: no interventions, no vaccine
or antiviral policy, required scalars present. -/
def reqBase : SimulationRequest :=
  { npis := .pyNone
    antiviral_stockpile := .pyNone
    vaccine_adherence := .pyNone
    vaccine_effectiveness := .pyNone
    vaccine_stockpile := .pyNone
    initial_infected := .absent
    R0 := some (.float "2.5")
    beta_scale := some (.int 10)
    tau := some (.float "1.2")
    kappa := some (.float "1.9")
    gamma := some (.float "4.1")
    chi := some (.float "1.0")
    rho := some (.float "0.39")
    nu := some (.str "0.01,0.01,0.01,0.01,0.01")
    antiviral_effectiveness := some (.float "0.8")
    antiviral_wastage_factor := some (.int 60)
    vaccine_wastage_factor := some (.int 60)
    vaccine_pro_rata := some (.str "pro_rata") }

/-- The C10 witness request: a 5-element adherence list and a scalar
effectiveness. -/
def reqListAdherence : SimulationRequest :=
  { reqBase with
      vaccine_adherence :=
        .parsed (.arr [.float "0.1", .float "0.2", .float "0.3", .float "0.4", .float "0.5"])
      vaccine_effectiveness := .parsed (.float "0.5") }

/-- C10 witness: a client-supplied per-age-group list is itself replicated
five times, and a scalar is broadcast. -/
theorem vaccine_fields_replicate_witness :
    ∃ cfg,
      return_valid_input reqListAdherence = .ok cfg ∧
      cfg.vaccines.vaccine_adherence =
        some (.arr (List.replicate 5
          (.arr [.float "0.1", .float "0.2", .float "0.3", .float "0.4", .float "0.5"]))) ∧
      cfg.vaccines.vaccine_effectiveness =
        some (.arr (List.replicate 5 (.float "0.5"))) := by
  obtain ⟨cfg, hok⟩ : ∃ cfg, return_valid_input reqListAdherence = .ok cfg := ⟨_, rfl⟩
  refine ⟨cfg, hok, ?_, ?_⟩
  · exact (vaccine_fields_replicate reqListAdherence cfg hok).1 _ rfl
      (fun hh => JValue.noConfusion hh)
  · exact (vaccine_fields_replicate reqListAdherence cfg hok).2 _ rfl
      (fun hh => JValue.noConfusion hh)

/-- Looking up a different key is unaffected by a dict assignment. -/
theorem lookupKey_setKey_ne (l : List (String × JValue)) (k k2 : String)
    (v : JValue) (h : k ≠ k2) : lookupKey (setKey l k v) k2 = lookupKey l k2 := by
  induction l with
  | nil => simp [setKey, lookupKey, h]
  | cons kv rest ih =>
      obtain ⟨k1, v1⟩ := kv
      by_cases h1 : k1 = k
      · subst h1; simp [setKey, lookupKey, h]
      · by_cases h2 : k1 = k2 <;> simp [setKey, lookupKey, h1, h2, ih, Ne.symm h]

/-- Looking up the key just assigned yields the assigned value. -/
theorem lookupKey_setKey_self (l : List (String × JValue)) (k : String)
    (v : JValue) : lookupKey (setKey l k v) k = some v := by
  induction l with
  | nil => simp [setKey, lookupKey]
  | cons kv rest ih =>
      obtain ⟨k1, v1⟩ := kv
      by_cases h1 : k1 = k <;> simp [setKey, lookupKey, h1, ih]

/-- An NPI entry lacking its `location` or `effectiveness` key raises
(`KeyError`), so its processing yields `none`. -/
theorem processNpi_missing_key (fields : List (String × JValue))
    (h : lookupKey fields "location" = none ∨ lookupKey fields "effectiveness" = none) :
    processNpi (.obj fields) = none := by
  unfold processNpi
  cases hl : lookupKey fields "location" with
  | none => simp [hl]
  | some loc =>
      cases h with
      | inl h0 => rw [hl] at h0; cases h0
      | inr h0 =>
          cases hn : normLocation loc with
          | none => simp [hl, hn]
          | some p =>
              obtain ⟨ls, ws⟩ := p
              have he : lookupKey (setKey fields "location" (.str ls)) "effectiveness" = none := by
                rw [lookupKey_setKey_ne fields "location" "effectiveness" _ (by decide)]
                exact h0
              simp [hl, hn, he]

/-- One raising entry makes the whole NPI list processing raise. -/
theorem processNpiList_none (xs : List JValue) (x : JValue) (hx : x ∈ xs)
    (hfail : processNpi x = none) : processNpiList xs = none := by
  induction xs with
  | nil => cases hx
  | cons y ys ih =>
      rcases List.mem_cons.mp hx with h | h
      · subst h
        simp [processNpiList, hfail]
      · unfold processNpiList
        cases hy : processNpi y with
        | none => rfl
        | some z => rw [ih h]

/-- C9: the two "no usable NPIs" cases are distinguishable in the config: an
explicitly null `npis` field gives the empty list, while a malformed `npis`
JSON string — or a parsed list one of whose entries lacks a `location` or
`effectiveness` key — gives the Python `None` sentinel, and the two values
differ. -/
theorem npis_null_vs_malformed (r : SimulationRequest) (cfg : SimulationConfig)
    (h : return_valid_input r = .ok cfg) :
    (r.npis = .pyNone → cfg.non_pharma_interventions = some (.arr [])) ∧
    (r.npis = .malformed → cfg.non_pharma_interventions = none) ∧
    (∀ xs fields, r.npis = .parsed (.arr xs) → JValue.obj fields ∈ xs →
      (lookupKey fields "location" = none ∨ lookupKey fields "effectiveness" = none) →
      cfg.non_pharma_interventions = none) ∧
    (some (JValue.arr []) ≠ (none : Option JValue)) := by
  have hnp := (rvi_fields r cfg h).1
  refine ⟨?_, ?_, ?_, by simp⟩
  · intro hv; rw [hv] at hnp; simpa [normNpis] using hnp
  · intro hv; rw [hv] at hnp; simpa [normNpis] using hnp
  · intro xs fields hv hmem hkeys
    rw [hv] at hnp
    rw [hnp]
    simp [normNpis, processNpis,
      processNpiList_none xs (.obj fields) hmem (processNpi_missing_key fields hkeys)]

/-- C9 witness: a null `npis`, a malformed `npis`, and an entry with a missing
`effectiveness` key, on otherwise identical requests. -/
theorem npis_null_vs_malformed_witness :
    (∃ cfg, return_valid_input reqBase = .ok cfg ∧
      cfg.non_pharma_interventions = some (.arr [])) ∧
    (∃ cfg, return_valid_input { reqBase with npis := .malformed } = .ok cfg ∧
      cfg.non_pharma_interventions = none) ∧
    (∃ cfg, return_valid_input
        { reqBase with npis := .parsed (.arr [.obj [("location", .str "Travis")]]) } = .ok cfg ∧
      cfg.non_pharma_interventions = none) := by
  refine ⟨?_, ?_, ?_⟩
  · obtain ⟨cfg, hok⟩ : ∃ cfg, return_valid_input reqBase = .ok cfg := ⟨_, rfl⟩
    exact ⟨cfg, hok, (npis_null_vs_malformed reqBase cfg hok).1 rfl⟩
  · obtain ⟨cfg, hok⟩ :
        ∃ cfg, return_valid_input { reqBase with npis := .malformed } = .ok cfg := ⟨_, rfl⟩
    exact ⟨cfg, hok, (npis_null_vs_malformed _ cfg hok).2.1 rfl⟩
  · obtain ⟨cfg, hok⟩ :
        ∃ cfg, return_valid_input
          { reqBase with npis := .parsed (.arr [.obj [("location", .str "Travis")]]) } =
            .ok cfg := ⟨_, rfl⟩
    exact ⟨cfg, hok, (npis_null_vs_malformed _ cfg hok).2.2.1
      [.obj [("location", .str "Travis")]] [("location", .str "Travis")] rfl
      (by simp) (Or.inr rfl)⟩

/-- All structurally required scalar fields are present. -/
def RequiredScalarsOk (r : SimulationRequest) : Prop :=
  r.R0.isSome = true ∧ r.beta_scale.isSome = true ∧ r.tau.isSome = true ∧
  r.kappa.isSome = true ∧ r.gamma.isSome = true ∧ r.chi.isSome = true ∧
  r.rho.isSome = true ∧ r.nu.isSome = true ∧
  r.antiviral_effectiveness.isSome = true ∧
  r.antiviral_wastage_factor.isSome = true ∧
  r.vaccine_wastage_factor.isSome = true ∧ r.vaccine_pro_rata.isSome = true

/-- The four stockpile/vaccine JSON-encoded keys are present (in whatever
shape); their plain `input[k]` access is the only thing that can raise for
them. -/
def OptionalKeysPresent (r : SimulationRequest) : Prop :=
  r.antiviral_stockpile ≠ .absent ∧ r.vaccine_adherence ≠ .absent ∧
  r.vaccine_effectiveness ≠ .absent ∧ r.vaccine_stockpile ≠ .absent

/-- A present optional JSON-encoded field never makes its guarded parse
raise. -/
theorem jsonOptField_ok (k : String) (f : RawField) (h : f ≠ .absent) :
    ∃ w, jsonOptField k f = .ok w := by
  cases f with
  | absent => exact absurd rfl h
  | pyNone => exact ⟨none, rfl⟩
  | malformed => exact ⟨none, rfl⟩
  | nonString v => exact ⟨none, rfl⟩
  | parsed v => cases v <;> exact ⟨_, rfl⟩

/-- A present required scalar field passes `input[k]`. -/
theorem requireKey_ok (k : String) (o : Option JValue) (h : o.isSome = true) :
    ∃ w, requireKey k o = .ok w := by
  cases o with
  | none => cases h
  | some v => exact ⟨v, rfl⟩

/-- C2 amended: the five JSON-encoded sub-fields `npis`,
`antiviral_stockpile`, `vaccine_adherence`, `vaccine_effectiveness` and
`vaccine_stockpile` are parsed defensively — with the structurally required
fields present, normalization succeeds whatever shape those five take, and a
present-but-malformed one degrades to the `None` sentinel — but
`initial_infected` is not defensive: a present-but-malformed
`initial_infected` raises `json.JSONDecodeError`, which propagates to the
caller. -/
theorem optional_fields_degrade :
    (∀ r : SimulationRequest, RequiredScalarsOk r → OptionalKeysPresent r →
      (r.initial_infected = .absent ∨ ∃ v, r.initial_infected = .parsed v) →
      ∃ cfg, return_valid_input r = .ok cfg) ∧
    (∀ r cfg, return_valid_input r = .ok cfg →
      (r.npis = .malformed → cfg.non_pharma_interventions = none) ∧
      (r.antiviral_stockpile = .malformed → cfg.antivirals.antiviral_stockpile = none) ∧
      (r.vaccine_adherence = .malformed → cfg.vaccines.vaccine_adherence = none) ∧
      (r.vaccine_effectiveness = .malformed → cfg.vaccines.vaccine_effectiveness = none) ∧
      (r.vaccine_stockpile = .malformed → cfg.vaccines.vaccine_stockpile = none)) ∧
    (∀ r : SimulationRequest, RequiredScalarsOk r → OptionalKeysPresent r →
      r.initial_infected = .malformed →
      return_valid_input r = .error .jsonDecodeError) := by
  refine ⟨?_, ?_, ?_⟩
  · intro r hs ho hii
    obtain ⟨h1, h2, h3, h4, h5, h6, h7, h8, h9, h10, h11, h12⟩ := hs
    obtain ⟨o1, o2, o3, o4⟩ := ho
    obtain ⟨w1, e1⟩ := jsonOptField_ok "antiviral_stockpile" _ o1
    obtain ⟨w2, e2⟩ := jsonOptField_ok "vaccine_adherence" _ o2
    obtain ⟨w3, e3⟩ := jsonOptField_ok "vaccine_effectiveness" _ o3
    obtain ⟨w4, e4⟩ := jsonOptField_ok "vaccine_stockpile" _ o4
    obtain ⟨u1, f1⟩ := requireKey_ok "R0" _ h1
    obtain ⟨u2, f2⟩ := requireKey_ok "beta_scale" _ h2
    obtain ⟨u3, f3⟩ := requireKey_ok "tau" _ h3
    obtain ⟨u4, f4⟩ := requireKey_ok "kappa" _ h4
    obtain ⟨u5, f5⟩ := requireKey_ok "gamma" _ h5
    obtain ⟨u6, f6⟩ := requireKey_ok "chi" _ h6
    obtain ⟨u7, f7⟩ := requireKey_ok "rho" _ h7
    obtain ⟨u8, f8⟩ := requireKey_ok "nu" _ h8
    obtain ⟨u9, f9⟩ := requireKey_ok "antiviral_effectiveness" _ h9
    obtain ⟨u10, f10⟩ := requireKey_ok "antiviral_wastage_factor" _ h10
    obtain ⟨u11, f11⟩ := requireKey_ok "vaccine_wastage_factor" _ h11
    obtain ⟨u12, f12⟩ := requireKey_ok "vaccine_pro_rata" _ h12
    have eii : ∃ w, initialInfectedField r.initial_infected = .ok w := by
      rcases hii with h | ⟨v, h⟩
      · exact ⟨.arr [], by rw [h]; rfl⟩
      · exact ⟨v, by rw [h]; rfl⟩
    obtain ⟨wii, eiiq⟩ := eii
    simp only [return_valid_input, e1, e2, e3, e4, f1, f2, f3, f4, f5, f6, f7, f8,
      f9, f10, f11, f12, eiiq, Bind.bind, Except.bind, pure, Except.pure]
    exact ⟨_, rfl⟩
  · intro r cfg h
    obtain ⟨hnp, ⟨w1, e1, c1⟩, ⟨w2, e2, c2⟩, ⟨w3, e3, c3⟩, ⟨w4, e4, c4⟩, -, -⟩ :=
      rvi_fields r cfg h
    refine ⟨?_, ?_, ?_, ?_, ?_⟩
    · intro hm; rw [hm] at hnp; simpa [normNpis] using hnp
    · intro hm; rw [hm] at e1; cases e1; exact c1
    · intro hm; rw [hm] at e2; cases e2; simpa [broadcast5] using c2
    · intro hm; rw [hm] at e3; cases e3; simpa [broadcast5] using c3
    · intro hm; rw [hm] at e4; cases e4; exact c4
  · intro r hs ho hii
    obtain ⟨h1, h2, h3, h4, h5, h6, h7, h8, h9, h10, h11, h12⟩ := hs
    obtain ⟨o1, o2, o3, o4⟩ := ho
    obtain ⟨w1, e1⟩ := jsonOptField_ok "antiviral_stockpile" _ o1
    obtain ⟨w2, e2⟩ := jsonOptField_ok "vaccine_adherence" _ o2
    obtain ⟨w3, e3⟩ := jsonOptField_ok "vaccine_effectiveness" _ o3
    obtain ⟨w4, e4⟩ := jsonOptField_ok "vaccine_stockpile" _ o4
    obtain ⟨u1, f1⟩ := requireKey_ok "R0" _ h1
    obtain ⟨u2, f2⟩ := requireKey_ok "beta_scale" _ h2
    obtain ⟨u3, f3⟩ := requireKey_ok "tau" _ h3
    obtain ⟨u4, f4⟩ := requireKey_ok "kappa" _ h4
    obtain ⟨u5, f5⟩ := requireKey_ok "gamma" _ h5
    obtain ⟨u6, f6⟩ := requireKey_ok "chi" _ h6
    obtain ⟨u7, f7⟩ := requireKey_ok "rho" _ h7
    obtain ⟨u8, f8⟩ := requireKey_ok "nu" _ h8
    have eii : initialInfectedField r.initial_infected = .error .jsonDecodeError := by
      rw [hii]; rfl
    simp only [return_valid_input, e1, e2, e3, e4, f1, f2, f3, f4, f5, f6, f7, f8,
      eii, Bind.bind, Except.bind, pure, Except.pure]

/-- The C2 counterexample request: well-formed except for a malformed
`initial_infected` JSON string. -/
def reqMalformedSeed : SimulationRequest :=
  { reqBase with initial_infected := .malformed }

/-- A request whose five optional JSON-encoded sub-fields are all
present-but-malformed strings. -/
def reqAllMalformed : SimulationRequest :=
  { reqBase with
      npis := .malformed
      antiviral_stockpile := .malformed
      vaccine_adherence := .malformed
      vaccine_effectiveness := .malformed
      vaccine_stockpile := .malformed }

/-- C2 counterexample: a present-but-malformed `initial_infected` does not
degrade to a sentinel — normalization raises `json.JSONDecodeError`, which
propagates to the caller. -/
theorem initial_infected_malformed_raises :
    return_valid_input reqMalformedSeed = .error .jsonDecodeError := rfl

/-- C2 witness: with the required fields present, a request whose five
optional JSON-encoded sub-fields are all present-but-malformed is accepted,
with every one of them degraded to the `None` sentinel. -/
theorem optional_fields_degrade_witness :
    (∃ cfg, return_valid_input reqAllMalformed = .ok cfg ∧
      cfg.non_pharma_interventions = none ∧
      cfg.antivirals.antiviral_stockpile = none ∧
      cfg.vaccines.vaccine_adherence = none ∧
      cfg.vaccines.vaccine_effectiveness = none ∧
      cfg.vaccines.vaccine_stockpile = none) ∧
    return_valid_input reqMalformedSeed = .error .jsonDecodeError := by
  constructor
  · obtain ⟨cfg, hok⟩ :=
      optional_fields_degrade.1 reqAllMalformed
        (by refine ⟨rfl, rfl, rfl, rfl, rfl, rfl, rfl, rfl, rfl, rfl, rfl, rfl⟩)
        (by refine ⟨?_, ?_, ?_, ?_⟩ <;> intro hh <;> cases hh)
        (Or.inl rfl)
    obtain ⟨hm1, hm2, hm3, hm4, hm5⟩ := optional_fields_degrade.2.1 _ cfg hok
    exact ⟨cfg, hok, hm1 rfl, hm2 rfl, hm3 rfl, hm4 rfl, hm5 rfl⟩
  · exact optional_fields_degrade.2.2 reqMalformedSeed
      (by refine ⟨rfl, rfl, rfl, rfl, rfl, rfl, rfl, rfl, rfl, rfl, rfl, rfl⟩)
      (by refine ⟨?_, ?_, ?_, ?_⟩ <;> intro hh <;> cases hh)
      rfl

/-- The number of entries the client supplied for an effectiveness-shaped
field: entries of a comma-joined string, elements of a list, or one for a
scalar. -/
def suppliedCard : JValue → Nat
  | .str s => (pySplit s).length
  | .arr l => l.length
  | _ => 1

/-- Effectiveness normalization preserves the supplied cardinality. -/
theorem normEffectiveness_length (v : JValue) :
    (normEffectiveness v).length = suppliedCard v := by
  cases v <;> simp [normEffectiveness, suppliedCard]

/-- C1 amended: after normalization the 5-slot per-age-group cardinality is
guaranteed for `vaccine_adherence` and `vaccine_effectiveness` only (any
non-`None` value, scalar or list, becomes `[v]*5`); NPI `effectiveness` and
`nu` are merely shape-normalized and keep the client-supplied cardinality —
a string splits on commas, a list keeps its length, a scalar NPI
effectiveness becomes a 1-element list and a non-string `nu` passes through
unchanged. -/
theorem per_age_group_cardinality :
    (∀ r cfg, return_valid_input r = .ok cfg →
      (∀ v, cfg.vaccines.vaccine_adherence = some v →
        ∃ w, v = .arr (List.replicate 5 w)) ∧
      (∀ v, cfg.vaccines.vaccine_effectiveness = some v →
        ∃ w, v = .arr (List.replicate 5 w)) ∧
      (∀ u, r.nu = some u → cfg.parameters.nu = normNu u)) ∧
    (∀ s, normNu (.str s) = .arr ((pySplit s).map JValue.str)) ∧
    (∀ v, (∀ s, v ≠ .str s) → normNu v = v) ∧
    (∀ fields out, processNpi (.obj fields) = some out →
      ∃ eff outFields, lookupKey fields "effectiveness" = some eff ∧
        out = .obj outFields ∧
        lookupKey outFields "effectiveness" =
          some (.arr ((normEffectiveness eff).map JValue.str))) ∧
    (∀ v, (normEffectiveness v).length = suppliedCard v) ∧
    (∀ v, (∀ s, v ≠ .str s) → (∀ l, v ≠ .arr l) → suppliedCard v = 1) := by
  refine ⟨?_, ?_, ?_, ?_, normEffectiveness_length, ?_⟩
  · intro r cfg h
    obtain ⟨-, -, ⟨va0, hva, hcva⟩, ⟨ve0, hve, hcve⟩, -, ⟨u0, hu0, hnu⟩, -⟩ :=
      rvi_fields r cfg h
    refine ⟨?_, ?_, ?_⟩
    · intro v hv
      rw [hcva] at hv
      cases va0 with
      | none => cases hv
      | some w =>
          refine ⟨w, ?_⟩
          simpa [broadcast5] using hv.symm
    · intro v hv
      rw [hcve] at hv
      cases ve0 with
      | none => cases hv
      | some w =>
          refine ⟨w, ?_⟩
          simpa [broadcast5] using hv.symm
    · intro u hu
      rw [hu0] at hu
      cases hu
      exact hnu
  · intro s; rfl
  · intro v h
    cases v with
    | str s => exact absurd rfl (h s)
    | _ => rfl
  · intro fields out h
    simp only [processNpi] at h
    cases hl : lookupKey fields "location" with
    | none => simp only [hl] at h; exact Option.noConfusion h
    | some loc =>
        simp only [hl] at h
        cases hn : normLocation loc with
        | none => simp only [hn] at h; exact Option.noConfusion h
        | some p =>
            obtain ⟨ls, ws⟩ := p
            simp only [hn] at h
            cases he : lookupKey (setKey fields "location" (.str ls)) "effectiveness" with
            | none => simp only [he] at h; exact Option.noConfusion h
            | some eff =>
                simp only [he, Option.some.injEq] at h
                refine ⟨eff, setKey (setKey fields "location" (.str ls)) "effectiveness"
                  (.arr ((normEffectiveness eff).map JValue.str)), ?_, ?_, ?_⟩
                · rw [← lookupKey_setKey_ne fields "location" "effectiveness"
                    (.str ls) (by decide)]
                  exact he
                · exact h.symm
                · exact lookupKey_setKey_self _ _ _
  · intro v hs hl
    cases v with
    | str s => exact absurd rfl (hs s)
    | arr l => exact absurd rfl (hl l)
    | _ => rfl

/-- The C1 counterexample request: one NPI with a scalar `effectiveness`, and
a scalar (non-string) `nu`. -/
def reqScalarShapes : SimulationRequest :=
  { reqBase with
      npis := .parsed (.arr [.obj [("name", .str "School Closure"),
        ("location", .str "Anderson"), ("effectiveness", .int 1)]])
      nu := some (.float "0.5") }

/-- C1 counterexample: the request is accepted, but in the resulting config
the NPI `effectiveness` is the 1-element list `['1']` (the scalar was *not*
broadcast to 5 slots) and `nu` is not a list at all — the cardinality-5
invariant fails for these simulator list fields. -/
theorem scalar_shapes_not_broadcast :
    ∃ cfg effList, return_valid_input reqScalarShapes = .ok cfg ∧
      cfg.non_pharma_interventions =
        some (.arr [.obj [("name", .str "School Closure"), ("location", .str "1"),
          ("effectiveness", .arr effList)]]) ∧
      effList.length = 1 ∧ 1 ≠ 5 ∧
      cfg.parameters.nu = .float "0.5" :=
  ⟨_, [.str "1"], rfl, rfl, rfl, by decide, rfl⟩

/-- The C1 witness request: scalar adherence, 5-element list effectiveness,
scalar `nu`. -/
def reqCardWitness : SimulationRequest :=
  { reqBase with
      vaccine_adherence := .parsed (.float "0.5")
      vaccine_effectiveness := .parsed (.arr
        [.float "0.1", .float "0.2", .float "0.3", .float "0.4", .float "0.5"])
      nu := some (.float "0.5") }

/-- C1 witness: the amended cardinality statement applied to a concrete
request and a concrete NPI entry. -/
theorem per_age_group_cardinality_witness :
    (∃ cfg, return_valid_input reqCardWitness = .ok cfg ∧
      (∃ w, cfg.vaccines.vaccine_adherence = some (.arr (List.replicate 5 w))) ∧
      (∃ w, cfg.vaccines.vaccine_effectiveness = some (.arr (List.replicate 5 w))) ∧
      cfg.parameters.nu = .float "0.5") ∧
    normNu (.str "0.1,0.2") = .arr [.str "0.1", .str "0.2"] ∧
    (∃ eff outFields,
      lookupKey [("location", .str "Anderson"), ("effectiveness", .int 1)]
        "effectiveness" = some eff ∧
      JValue.obj [("location", .str "1"), ("effectiveness", .arr [.str "1"])] =
        .obj outFields ∧
      lookupKey outFields "effectiveness" =
        some (.arr ((normEffectiveness eff).map JValue.str))) ∧
    suppliedCard (.int 1) = 1 := by
  refine ⟨⟨_, rfl, ?_, ?_, ?_⟩, ?_, ?_, ?_⟩
  · obtain ⟨w, hw⟩ := (per_age_group_cardinality.1 reqCardWitness _ rfl).1 _ rfl
    exact ⟨w, by rw [← hw]; rfl⟩
  · obtain ⟨w, hw⟩ := (per_age_group_cardinality.1 reqCardWitness _ rfl).2.1 _ rfl
    exact ⟨w, by rw [← hw]; rfl⟩
  · have h := (per_age_group_cardinality.1 reqCardWitness _ rfl).2.2 (.float "0.5") rfl
    exact h.trans (per_age_group_cardinality.2.2.1 (.float "0.5")
      (fun s hh => JValue.noConfusion hh))
  · exact (per_age_group_cardinality.2.1 "0.1,0.2").trans rfl
  · exact per_age_group_cardinality.2.2.2.1 _ _ rfl
  · exact per_age_group_cardinality.2.2.2.2.2 (.int 1)
      (fun s hh => JValue.noConfusion hh) (fun l hh => JValue.noConfusion hh)

/-- Resolving a list of plain county-name strings succeeds and factors
through the single-name resolution. -/
theorem resolveCounties_map_str (names : List String) :
    resolveCounties (names.map JValue.str) =
      some (names.map (fun n => (countyIdStr n).fst),
        (names.map (fun n => (countyIdStr n).snd)).flatten) := by
  induction names with
  | nil => rfl
  | cons n rest ih =>
      simp only [List.map_cons, resolveCounties, countyIdVal, ih, List.flatten_cons]

/-- C8 amended: for the same *sequence* of county names, a comma-joined
string `location` and a list-of-strings `location` normalize to the same
comma-joined id string (a single name being the one-element case); a name in
the mapping resolves to its id, an unknown name resolves to the default id
`"1"` together with a warning log entry, and resolution never raises on
string names. -/
theorem location_shape_equivalence :
    (∀ s names, pySplit s = names →
      normLocation (.str s) = normLocation (.arr (names.map JValue.str))) ∧
    (∀ n id, lookupName texas_mapping n = some id →
      normLocation (.arr [.str n]) = some (id, [])) ∧
    (∀ n, lookupName texas_mapping n = none →
      normLocation (.arr [.str n]) = some ("1", [n])) ∧
    (∀ names : List String, (normLocation (.arr (names.map JValue.str))).isSome = true) := by
  refine ⟨?_, ?_, ?_, ?_⟩
  · intro s names hsplit
    simp [normLocation, resolveCounties_map_str, hsplit, List.map_map, Function.comp_def]
  · intro n id hid
    simp [normLocation, resolveCounties, countyIdVal, countyIdStr, hid, pyJoin]
  · intro n hid
    simp [normLocation, resolveCounties, countyIdVal, countyIdStr, hid, pyJoin]
  · intro names
    simp [normLocation, resolveCounties_map_str]

/-- C8 counterexample: two `location` lists carrying the same *multiset* of
county names but in different order normalize to different joined id
strings — the normalized form is order-sensitive, so it is not a function of
the multiset of names alone. -/
theorem location_multiset_not_invariant :
    normLocation (.arr [.str "Anderson", .str "Andrews"]) = some ("1,2", []) ∧
    normLocation (.arr [.str "Andrews", .str "Anderson"]) = some ("2,1", []) ∧
    ("1,2" : String) ≠ "2,1" ∧
    (["Anderson", "Andrews"] : Multiset String) = (["Andrews", "Anderson"] : List String) := by
  refine ⟨rfl, rfl, by decide, ?_⟩
  exact Multiset.coe_eq_coe.mpr (by decide)

/-- C8 witness: the shape-equivalence applied to the concrete two-county
string "Anderson,Travis", to a mapped name and to an unknown name. -/
theorem location_shape_equivalence_witness :
    normLocation (.str "Anderson,Travis") =
      normLocation (.arr [.str "Anderson", .str "Travis"]) ∧
    normLocation (.arr [.str "Travis"]) = some ("227", []) ∧
    normLocation (.arr [.str "Atlantis"]) = some ("1", ["Atlantis"]) ∧
    (normLocation (.arr [.str "Atlantis", .str "Anderson"])).isSome = true := by
  refine ⟨?_, ?_, ?_, ?_⟩
  · exact location_shape_equivalence.1 "Anderson,Travis" ["Anderson", "Travis"] rfl
  · exact location_shape_equivalence.2.1 "Travis" "227" rfl
  · exact location_shape_equivalence.2.2.1 "Atlantis" rfl
  · exact location_shape_equivalence.2.2.2 ["Atlantis", "Anderson"]

/-- Unfolding: the loop exits when the wall-clock guard has expired. -/
theorem harvestLoop_timeout (arr : Nat → List FileContent) (i e p : Nat)
    (s : DayStore) (dir : List FileContent) (he : ¬ e < 600) :
    harvestLoop arr i e p s dir = (e, p, s) := by
  rw [harvestLoop.eq_def]
  simp [he]

/-- Unfolding: an empty poll with the day quota already reached breaks. -/
theorem harvestLoop_nil_break (arr : Nat → List FileContent) (i e p : Nat)
    (s : DayStore) (he : e < 600) (hp : 90 ≤ p) :
    harvestLoop arr i e p s [] = (e + 1, p, s) := by
  rw [harvestLoop.eq_def]
  simp [he, hp]

/-- Unfolding: an empty poll sleeps half a second and re-polls. -/
theorem harvestLoop_nil_step (arr : Nat → List FileContent) (i e p : Nat)
    (s : DayStore) (he : e < 600) (hp : ¬ 90 ≤ p) :
    harvestLoop arr i e p s [] = harvestLoop arr (i + 1) (e + 1) p s (arr i) := by
  rw [harvestLoop.eq_def]
  simp [he, hp]

/-- Unfolding: a found file is attempted and removed, and the loop breaks if
the attempt completed the 90-day quota. -/
theorem harvestLoop_cons_break (arr : Nat → List FileContent) (i e p : Nat)
    (s : DayStore) (f : FileContent) (rest : List FileContent) (he : e < 600)
    (hp : 90 ≤ (if (tryIngest f s).snd then p + 1 else p)) :
    harvestLoop arr i e p s (f :: rest) =
      (e + 3, (if (tryIngest f s).snd then p + 1 else p), (tryIngest f s).fst) := by
  rw [harvestLoop.eq_def]
  simp [he, hp]

/-- Unfolding: a found file is attempted and removed, and the loop goes on
with the rest of the directory when the quota is not yet reached. -/
theorem harvestLoop_cons_step (arr : Nat → List FileContent) (i e p : Nat)
    (s : DayStore) (f : FileContent) (rest : List FileContent) (he : e < 600)
    (hp : ¬ 90 ≤ (if (tryIngest f s).snd then p + 1 else p)) :
    harvestLoop arr i e p s (f :: rest) =
      harvestLoop arr (i + 1) (e + 3) (if (tryIngest f s).snd then p + 1 else p)
        (tryIngest f s).fst (rest ++ arr i) := by
  rw [harvestLoop.eq_def]
  simp [he, hp]

/-- The total number of files the simulator writes during the next `k`
iterations starting from iteration `i`. -/
def arrSupply (arr : Nat → List FileContent) : Nat → Nat → Nat
  | _, 0 => 0
  | i, k + 1 => (arr i).length + arrSupply arr (i + 1) k

/-- `arrSupply` is monotone in the number of iterations. -/
theorem arrSupply_mono (arr : Nat → List FileContent) :
    ∀ k2 i k, k ≤ k2 → arrSupply arr i k ≤ arrSupply arr i k2 := by
  intro k2
  induction k2 with
  | zero => intro i k hk; interval_cases k; exact le_rfl
  | succ k2 ih =>
      intro i k hk
      cases k with
      | zero => exact Nat.zero_le _
      | succ k1 =>
          simp only [arrSupply]
          exact Nat.add_le_add_left (ih (i + 1) k1 (Nat.succ_le_succ_iff.mp hk)) _

/-- Fuel-indexed form of the supply bound: the loop's ingested-day count
exceeds `p` by at most the current directory size plus everything the
simulator can still write. -/
theorem harvestLoop_count_le_supply_fuel (arr : Nat → List FileContent) :
    ∀ n i e p s dir, 600 - e ≤ n →
      (harvestLoop arr i e p s dir).2.1 ≤
        p + dir.length + arrSupply arr i (600 - e) := by
  intro n
  induction n with
  | zero =>
      intro i e p s dir hn
      have he : ¬ e < 600 := by omega
      rw [harvestLoop_timeout arr i e p s dir he]
      show p ≤ p + dir.length + arrSupply arr i (600 - e)
      omega
  | succ n ih =>
      intro i e p s dir hn
      by_cases he : e < 600
      · cases dir with
        | nil =>
            by_cases hp : 90 ≤ p
            · rw [harvestLoop_nil_break arr i e p s he hp]
              show p ≤ p + ([] : List FileContent).length + arrSupply arr i (600 - e)
              omega
            · rw [harvestLoop_nil_step arr i e p s he hp]
              have h2 := ih (i + 1) (e + 1) p s (arr i) (by omega)
              have hk : 600 - e = (600 - (e + 1)) + 1 := by omega
              rw [hk, arrSupply]
              simp only [List.length_nil] at *
              omega
        | cons f rest =>
            have hb : (if (tryIngest f s).snd then p + 1 else p) = p + 1 ∨
                (if (tryIngest f s).snd then p + 1 else p) = p := by
              by_cases hf : (tryIngest f s).snd
              · left; simp [hf]
              · right; simp [hf]
            by_cases hp : 90 ≤ (if (tryIngest f s).snd then p + 1 else p)
            · rw [harvestLoop_cons_break arr i e p s f rest he hp]
              show (if (tryIngest f s).snd then p + 1 else p) ≤
                p + (f :: rest).length + arrSupply arr i (600 - e)
              simp only [List.length_cons]
              omega
            · rw [harvestLoop_cons_step arr i e p s f rest he hp]
              have h2 := ih (i + 1) (e + 3) (if (tryIngest f s).snd then p + 1 else p)
                (tryIngest f s).fst (rest ++ arr i) (by omega)
              have hmono := arrSupply_mono arr (600 - (e + 1)) (i + 1) (600 - (e + 3))
                (by omega)
              have hk : 600 - e = (600 - (e + 1)) + 1 := by omega
              rw [hk, arrSupply]
              simp only [List.length_append, List.length_cons] at *
              omega
      · rw [harvestLoop_timeout arr i e p s dir he]
        show p ≤ p + dir.length + arrSupply arr i (600 - e)
        omega

/-- C4: a file selected for ingestion is removed from the directory whatever
the outcome of the attempt — the loop continues on the remaining files only,
so a slot is never ingested twice; in particular a malformed head file leaves
the store and the ingested-day count untouched without crashing or halting
the loop, and the total count can never exceed the number of file slots that
ever existed before the timeout. -/
theorem ingestion_removes_file_and_continues :
    (∀ arr i e p s f rest, e < 600 →
      ¬ 90 ≤ (if (tryIngest f s).snd then p + 1 else p) →
      harvestLoop arr i e p s (f :: rest) =
        harvestLoop arr (i + 1) (e + 3) (if (tryIngest f s).snd then p + 1 else p)
          (tryIngest f s).fst (rest ++ arr i)) ∧
    (∀ arr i e p s rest, e < 600 → p < 90 →
      harvestLoop arr i e p s (.malformed :: rest) =
        harvestLoop arr (i + 1) (e + 3) p s (rest ++ arr i)) ∧
    (∀ arr i e p s dir, (harvestLoop arr i e p s dir).2.1 ≤
      p + dir.length + arrSupply arr i (600 - e)) := by
  refine ⟨harvestLoop_cons_step, ?_, ?_⟩
  · intro arr i e p s rest he hp
    have h := harvestLoop_cons_step arr i e p s .malformed rest he
      (by simpa [tryIngest] using Nat.not_le.mpr hp)
    simpa [tryIngest] using h
  · intro arr i e p s dir
    exact harvestLoop_count_le_supply_fuel arr 600 i e p s dir (by omega)

/-- C4 witness: the continuation equation applied to a malformed head file in
a concrete state, and the supply bound at that state. -/
theorem ingestion_removes_file_and_continues_witness :
    harvestLoop (fun _ => []) 0 0 0 emptyStore [.malformed, .ok (.obj dayDoc3)] =
      harvestLoop (fun _ => []) 1 3 0 emptyStore ([.ok (.obj dayDoc3)] ++ []) ∧
    (harvestLoop (fun _ => []) 0 0 0 emptyStore [.malformed]).2.1 ≤
      0 + [FileContent.malformed].length + arrSupply (fun _ => []) 0 (600 - 0) := by
  constructor
  · exact ingestion_removes_file_and_continues.2.1 (fun _ => []) 0 0 0 emptyStore
      [.ok (.obj dayDoc3)] (by decide) (by decide)
  · exact ingestion_removes_file_and_continues.2.2 (fun _ => []) 0 0 0 emptyStore
      [.malformed]

/-- Fuel-indexed loop bounds: at most 90 days, at most 602 ticks on exit, and
exit only by timeout or by a completed 90-day quota. -/
theorem harvestLoop_bounds_fuel (arr : Nat → List FileContent) :
    ∀ n i e p s dir, 600 - e ≤ n → p < 90 → e ≤ 602 →
      (harvestLoop arr i e p s dir).2.1 ≤ 90 ∧
      (harvestLoop arr i e p s dir).1 ≤ 602 ∧
      (600 ≤ (harvestLoop arr i e p s dir).1 ∨
        (harvestLoop arr i e p s dir).2.1 = 90) := by
  intro n
  induction n with
  | zero =>
      intro i e p s dir hn hp2 he2
      have he : ¬ e < 600 := by omega
      rw [harvestLoop_timeout arr i e p s dir he]
      exact ⟨by show p ≤ 90; omega, by show e ≤ 602; omega,
        Or.inl (by show 600 ≤ e; omega)⟩
  | succ n ih =>
      intro i e p s dir hn hp2 he2
      by_cases he : e < 600
      · cases dir with
        | nil =>
            have hp : ¬ 90 ≤ p := by omega
            rw [harvestLoop_nil_step arr i e p s he hp]
            exact ih (i + 1) (e + 1) p s (arr i) (by omega) hp2 (by omega)
        | cons f rest =>
            have hb : (if (tryIngest f s).snd then p + 1 else p) = p + 1 ∨
                (if (tryIngest f s).snd then p + 1 else p) = p := by
              by_cases hf : (tryIngest f s).snd
              · left; simp [hf]
              · right; simp [hf]
            by_cases hp : 90 ≤ (if (tryIngest f s).snd then p + 1 else p)
            · rw [harvestLoop_cons_break arr i e p s f rest he hp]
              have hq : (if (tryIngest f s).snd then p + 1 else p) = 90 := by
                rcases hb with hb | hb <;> rw [hb] at hp ⊢ <;> omega
              rw [hq]
              exact ⟨by show (90 : Nat) ≤ 90; omega, by show e + 3 ≤ 602; omega,
                Or.inr (by show (90 : Nat) = 90; rfl)⟩
            · rw [harvestLoop_cons_step arr i e p s f rest he hp]
              exact ih (i + 1) (e + 3) _ (tryIngest f s).fst (rest ++ arr i)
                (by omega) (by omega) (by omega)
      · rw [harvestLoop_timeout arr i e p s dir he]
        exact ⟨by show p ≤ 90; omega, by show e ≤ 602; omega,
          Or.inl (by show 600 ≤ e; omega)⟩

/-- C5: starting from a fresh job the Harvester loop terminates (it is a
total function) with at most 90 ingested days and at most 602 half-second
ticks (301 s) of wall clock; it exits only because the 300 s (600-tick)
guard expired or because the 90-day quota was completed, whichever came
first, and the task's result value is the summary string naming the count of
ingested days. -/
theorem harvester_terminates_with_summary (arr : Nat → List FileContent)
    (dir0 : List FileContent) :
    (harvestLoop arr 0 0 0 emptyStore dir0).2.1 ≤ 90 ∧
    (harvestLoop arr 0 0 0 emptyStore dir0).1 ≤ 602 ∧
    (600 ≤ (harvestLoop arr 0 0 0 emptyStore dir0).1 ∨
      (harvestLoop arr 0 0 0 emptyStore dir0).2.1 = 90) ∧
    (run_pes arr dir0).fst =
      "Simulation completed. Processed " ++
        toString (harvestLoop arr 0 0 0 emptyStore dir0).2.1 ++ " files." := by
  obtain ⟨h1, h2, h3⟩ :=
    harvestLoop_bounds_fuel arr 600 0 0 0 emptyStore dir0 (by omega) (by omega) (by omega)
  exact ⟨h1, h2, h3, rfl⟩
